import Mathlib

/-!
# VroomJs value bridge (`libvroomjs/jsengine.cpp`)

A shallow embedding of the value converter (`AnyFromV8`, `AnyToV8`,
`StringFromV8`, `ErrorFromV8`), of the session operations (`Execute`,
`SetValue`, `GetValue`) and of the two named-property interceptors of the
managed-object template, together with the properties stated about them.

The script engine is an external library.  Its values are modelled by the
inductive type `V8Value`; the primitives the source calls on them
(`IsInt32`, `Int32Value`, `String::New`, ...) are modelled next to it.
-/

namespace VroomJs

/-! ## Engine values -/

/-- A double as far as the converter can observe one: a finite value other
than negative zero, or one of the special values. -/
inductive Double where
  | finite (q : ℚ)
  | negZero
  | posInf
  | negInf
  | nan
deriving DecidableEq

/-- A native engine value (`Handle<Value>`).  Strings are sequences of UTF-16
code units.  A date has its time value and `valueOf`: `none` when the
`valueOf` a script sees on the date is the built-in one, `some n` when a
script has replaced it and converting the date to a number yields `n`.
Arrays are finite and acyclic, a hole reads as `undefined`.  Every object
that is neither a date nor an array is one of the last three constructors: a
plain object, a function, or an instance of the managed template whose
internal field holds a `ManagedRef` with the given id. -/
inductive V8Value where
  | null
  | undefined
  | boolean (b : Bool)
  | number (d : Double)
  | string (units : List Nat)
  | date (time : Double) (valueOf : Option Double)
  | array (elems : List V8Value)
  | object (id : Nat)
  | function (id : Nat)
  | managed (id : Int)

namespace V8Value

/-- Engine primitive `value->IsNull()`. -/
def IsNull : V8Value → Bool
  | null => true
  | _ => false

/-- Engine primitive `value->IsUndefined()`. -/
def IsUndefined : V8Value → Bool
  | undefined => true
  | _ => false

/-- Engine primitive `value->IsBoolean()`. -/
def IsBoolean : V8Value → Bool
  | boolean _ => true
  | _ => false

/-- Engine primitive `value->IsNumber()`. -/
def IsNumber : V8Value → Bool
  | number _ => true
  | _ => false

/-- Engine primitive `value->IsString()`. -/
def IsString : V8Value → Bool
  | string _ => true
  | _ => false

/-- Engine primitive `value->IsDate()`. -/
def IsDate : V8Value → Bool
  | date _ _ => true
  | _ => false

/-- Engine primitive `value->IsArray()`. -/
def IsArray : V8Value → Bool
  | array _ => true
  | _ => false

end V8Value

/-- The smallest and largest signed 32-bit integers. -/
def INT32_MIN : Int := -2147483648

/-- See `INT32_MIN`. -/
def INT32_MAX : Int := 2147483647

/-- A double is representable as a signed 32-bit integer when it is finite,
has no fractional part and lies in `[INT32_MIN, INT32_MAX]` (negative zero is
not: converting it to an integer and back loses the sign). -/
def Double.IsInt32 : Double → Bool
  | .finite q => decide (q.den = 1) && decide (INT32_MIN ≤ q.num) && decide (q.num ≤ INT32_MAX)
  | _ => false

/-- Wrap an integer into the signed 32-bit range (two's complement). -/
def wrapInt32 (i : Int) : Int := (i + 2147483648) % 4294967296 - 2147483648

/-- The engine's conversion of a double to a 32-bit integer: truncate toward
zero, then wrap modulo `2^32`; the non-finite values and negative zero give 0. -/
def Double.Int32Value : Double → Int
  | .finite q => wrapInt32 (q.num.tdiv q.den)
  | _ => 0

/-- The double with the value of an integer. -/
def Double.ofInt (i : Int) : Double := .finite i

/-- The time value a date keeps of a number (the engine's `TimeClip`): a
finite number of magnitude at most 8.64e15 loses its fraction (toward zero,
negative zero becomes zero), every other number becomes NaN. -/
def Double.TimeClip : Double → Double
  | .finite q =>
      if -8640000000000000 * (q.den : Int) ≤ q.num ∧ q.num ≤ 8640000000000000 * (q.den : Int) then
        Double.ofInt (q.num.tdiv q.den)
      else .nan
  | .negZero => Double.ofInt 0
  | _ => .nan

namespace V8Value

/-- Engine primitive `value->IsInt32()`: a number whose value is representable as a signed
32-bit integer. -/
def IsInt32 : V8Value → Bool
  | number d => d.IsInt32
  | _ => false

/-- Engine primitive `value->BooleanValue()` on the values the converter calls it on. -/
def BooleanValue : V8Value → Bool
  | boolean b => b
  | _ => false

/-- Engine primitive `value->Int32Value()` on the values the converter calls it on. -/
def Int32Value : V8Value → Int
  | number d => d.Int32Value
  | _ => 0

/-- Engine primitive `value->NumberValue()` on the values the converter calls
it on: the value of a number; for a date the conversion to a number runs the
`valueOf` a script sees, which is the time value unless a script replaced it. -/
def NumberValue : V8Value → Double
  | number d => d
  | date t valueOf => valueOf.getD t
  | _ => .nan

/-- Engine primitive `object->Length()` of an array (a `uint32_t`). -/
def Length : V8Value → Nat
  | array elems => elems.length
  | _ => 0

end V8Value

/-! ## Tagged values -/

/-- Modelled from the spec: the `JSVALUE_TYPE_*` constants are declared in
`vroomjs.h`, which is not among the sources.  The kinds are the nine the data
model lists (Null, Boolean, Integer, Number, String, Date, Array,
ManagedHandle, Error), pairwise distinct; `other n` stands for any tag value
that is none of them. -/
inductive JsValueType where
  | JSVALUE_TYPE_NULL
  | JSVALUE_TYPE_BOOLEAN
  | JSVALUE_TYPE_INTEGER
  | JSVALUE_TYPE_NUMBER
  | JSVALUE_TYPE_STRING
  | JSVALUE_TYPE_DATE
  | JSVALUE_TYPE_ARRAY
  | JSVALUE_TYPE_MANAGED
  | JSVALUE_TYPE_ERROR
  | other (n : Nat)
deriving DecidableEq

open JsValueType

/-- Modelled from the spec: the payload union of `jsvalue` (declared in
`vroomjs.h`, not among the sources), holding the member written last: a 32-bit
integer, a double, a pointer to a buffer of UTF-16 code units (`none` is the
null pointer, `some buf` the units stored from the pointer on) or an owned
sequence of tagged values. -/
inductive jsunion (α : Type) where
  | i32 (i : Int)
  | num (d : Double)
  | str (p : Option (List Nat))
  | arr (a : List α)

/-- Modelled from the spec: the tagged value `jsvalue` (declared in
`vroomjs.h`, not among the sources): a kind, a length (the element or
code-unit count, a signed 32-bit field: the values stored in it here are at
most `INT32_MAX`) and the payload union. -/
inductive jsvalue where
  | mk (type : JsValueType) (length : Nat) (value : jsunion jsvalue)

namespace jsvalue

/-- Field `type`. -/
def type : jsvalue → JsValueType
  | mk t _ _ => t

/-- Field `length`. -/
def length : jsvalue → Nat
  | mk _ l _ => l

/-- Field `value`. -/
def value : jsvalue → jsunion jsvalue
  | mk _ _ u => u

end jsvalue

namespace jsunion

/-- Read `value.i32`; the source gives no meaning to reading a member other
than the one stored. -/
def i32? {α : Type} : jsunion α → Option Int
  | i32 i => some i
  | _ => none

/-- Read `value.num`. -/
def num? {α : Type} : jsunion α → Option Double
  | num d => some d
  | _ => none

/-- Read `value.str` and the buffer it points to (`none` for another member
or for the null pointer). -/
def str? {α : Type} : jsunion α → Option (List Nat)
  | str p => p
  | _ => none

end jsunion

/-! ## Value converter -/

/-- The script engine as far as the bridge calls into script code: the type of
compiled scripts, the string form the engine computes for a value that is not
a string (`none` when the conversion itself throws, as for an object whose
`toString` throws: the engine then hands back an empty handle), compilation
(a script, or the exception the try-catch block holds) and execution against
the global object (the result or the thrown exception, and the global object
afterwards). -/
structure V8 where
  Script : Type
  text : V8Value → Option (List Nat)
  Compile : List Nat → Except V8Value Script
  Run : Script → (List Nat → V8Value) → Except V8Value V8Value × (List Nat → V8Value)

/-- Engine primitive `value->ToString()`: a string is its own string form,
every other value has the string form the engine computes, and the handle is
empty (`none`) when that computation throws. -/
def V8Value.ToString (v8 : V8) : V8Value → Option (List Nat)
  | .string units => some units
  | value => v8.text value

/-- Engine primitive `s->Write(buffer)`: the code units of the string followed
by the terminating zero unit. -/
def Write (s : List Nat) : List Nat := s ++ [0]

/-- Source function `JsEngine::StringFromV8`.  The handle `s` is used without
a test, so nothing is returned (`none`: the process faults in `s->Length()`)
when `value->ToString()` gave the empty handle. -/
def StringFromV8 (v8 : V8) (value : V8Value) : Option jsvalue :=
  match value.ToString v8 with
  | none => none
  | some s => some (.mk JSVALUE_TYPE_STRING s.length (.str (some (Write s))))

/-- Source function `JsEngine::ErrorFromV8`, on the exception held by the
try-catch block. -/
def ErrorFromV8 (v8 : V8) (exception : V8Value) : Option jsvalue :=
  match StringFromV8 v8 exception with
  | none => none
  | some v => some (.mk JSVALUE_TYPE_ERROR v.length v.value)

mutual

/-- Source function `JsEngine::AnyFromV8`.  Nothing is returned (`none`) for
an array whose `Length()` does not fit the signed 32-bit `v.length`: the
length stored is then negative and `new jsvalue[v.length]` ends the process;
nor when the conversion of an element returns nothing. -/
def AnyFromV8 (v8 : V8) (value : V8Value) : Option jsvalue :=
  if value.IsNull || value.IsUndefined then
    some (.mk JSVALUE_TYPE_NULL 0 (.str none))
  else if value.IsBoolean then
    some (.mk JSVALUE_TYPE_BOOLEAN 0 (.i32 (if value.BooleanValue then 1 else 0)))
  else if value.IsInt32 then
    some (.mk JSVALUE_TYPE_INTEGER 0 (.i32 value.Int32Value))
  else if value.IsNumber then
    some (.mk JSVALUE_TYPE_NUMBER 0 (.num value.NumberValue))
  else if value.IsString then
    StringFromV8 v8 value
  else if value.IsDate then
    some (.mk JSVALUE_TYPE_DATE 0 (.num value.NumberValue))
  else if value.IsArray then
    -- `Handle<Array>::Cast(value->ToObject())`: under `IsArray` the value is an array
    match value with
    | .array elems =>
        if value.Length ≤ 2147483647 then
          (AnyFromV8_loop v8 elems).map
            (fun array => .mk JSVALUE_TYPE_ARRAY value.Length (.arr array))
        else none
    | _ => some (.mk JSVALUE_TYPE_ERROR 0 (.str none))
  else
    some (.mk JSVALUE_TYPE_ERROR 0 (.str none))

/-- The element loop of `AnyFromV8`: `array[i] = AnyFromV8(object->Get(i))`
for the elements in index order. -/
def AnyFromV8_loop (v8 : V8) : List V8Value → Option (List jsvalue)
  | [] => some []
  | x :: xs =>
      (AnyFromV8 v8 x).bind (fun v => (AnyFromV8_loop v8 xs).map (fun vs => v :: vs))

end

/-- Engine primitive `Null()`. -/
def Null : V8Value := .null

/-- Engine primitive `Boolean::New(int)`: the integer converted to `bool`. -/
def Boolean.New (i : Int) : V8Value := .boolean (decide (i ≠ 0))

/-- Engine primitive `Int32::New(i)`. -/
def Int32.New (i : Int) : V8Value := .number (Double.ofInt i)

/-- Engine primitive `Number::New(d)`. -/
def Number.New (d : Double) : V8Value := .number d

/-- Engine primitive `String::New(data)` without a length: the code units before the first
zero unit (nothing when the buffer holds no terminator). -/
def String.New (data : List Nat) : Option V8Value :=
  if 0 ∈ data then some (.string (data.takeWhile (fun u => decide (u ≠ 0)))) else none

/-- Engine primitive `Date::New(d)`: a new date whose time value is the
clipped `d` and whose `valueOf` is the built-in one. -/
def Date.New (d : Double) : V8Value := .date d.TimeClip none

/-- The instance of the managed template made for a `JSVALUE_TYPE_MANAGED`
value: its internal field 0 holds `new ManagedRef(this, id)`. -/
def NewManagedInstance (id : Int) : V8Value := .managed id

/-- Source function `JsEngine::AnyToV8`.  The result is `none` where the source reads a union
member that is not the one stored or dereferences a null or unterminated
string buffer. -/
def AnyToV8 (v : jsvalue) : Option V8Value :=
  if v.type = JSVALUE_TYPE_NULL then
    some Null
  else if v.type = JSVALUE_TYPE_BOOLEAN then
    v.value.i32?.map Boolean.New
  else if v.type = JSVALUE_TYPE_INTEGER then
    v.value.i32?.map Int32.New
  else if v.type = JSVALUE_TYPE_NUMBER then
    v.value.num?.map Number.New
  else if v.type = JSVALUE_TYPE_STRING then
    v.value.str?.bind String.New
  else if v.type = JSVALUE_TYPE_DATE then
    v.value.num?.map Date.New
  else if v.type = JSVALUE_TYPE_MANAGED then
    v.value.i32?.map NewManagedInstance
  else
    some Null

/-! ## Engine session -/

/-- A call the session makes on its context or on the script engine. -/
inductive EngineCall where
  | Enter
  | Exit
  | Compile (source : List Nat)
  | Run
  | GlobalSet (name : List Nat)
deriving DecidableEq

/-- The session state the operations act on: the properties of the global
object of `context_` (a name that is not bound reads as `undefined`), the
number of times the context is currently entered, and the calls made so far. -/
structure JsEngine where
  global : List Nat → V8Value
  depth : Nat
  calls : List EngineCall

namespace JsEngine

/-- Note a call in the history. -/
def record (e : JsEngine) (c : EngineCall) : JsEngine :=
  { e with calls := e.calls ++ [c] }

/-- Engine primitive `(*context_)->Enter()`. -/
def Enter (e : JsEngine) : JsEngine :=
  { e with depth := e.depth + 1, calls := e.calls ++ [.Enter] }

/-- Engine primitive `(*context_)->Exit()`. -/
def Exit (e : JsEngine) : JsEngine :=
  { e with depth := e.depth - 1, calls := e.calls ++ [.Exit] }

/-- Engine primitive `(*context_)->Global()->Set(String::New(name), v)`. -/
def GlobalSet (e : JsEngine) (name : List Nat) (v : V8Value) : JsEngine :=
  { e with global := fun n => if n = name then v else e.global n,
           calls := e.calls ++ [.GlobalSet name] }

/-- Source function `JsEngine::New`: a fresh context, entered once and left entered. -/
def New : JsEngine :=
  Enter { global := fun _ => .undefined, depth := 0, calls := [] }

end JsEngine

/-- Source function `JsEngine::Execute`; `str` holds the code units of the
source before the terminator.  Nothing is returned where the conversion of
the outcome returns nothing. -/
def Execute (v8 : V8) (e : JsEngine) (str : List Nat) : Option (JsEngine × jsvalue) :=
  let e := e.Enter
  let source := str
  let e := e.record (.Compile source)
  let r : JsEngine × Option jsvalue :=
    match v8.Compile source with
    | .ok script =>
        let result := v8.Run script e.global
        let e := { e.record .Run with global := result.2 }
        match result.1 with
        | .error exception => (e, ErrorFromV8 v8 exception)
        | .ok result => (e, AnyFromV8 v8 result)
    | .error exception => (e, ErrorFromV8 v8 exception)
  r.2.map (fun v => (r.1.Exit, v))

/-- Source function `JsEngine::SetValue`; nothing is returned where `AnyToV8`
has no result. -/
def SetValue (v8 : V8) (e : JsEngine) (name : List Nat) (value : jsvalue) :
    Option (JsEngine × jsvalue) :=
  let e := e.Enter
  match AnyToV8 value with
  | none => none
  | some v =>
      let e := e.GlobalSet name v
      let e := e.Exit
      (AnyFromV8 v8 Null).map (fun r => (e, r))

/-- Source function `JsEngine::GetValue`. -/
def GetValue (v8 : V8) (e : JsEngine) (_name : List Nat) : Option (JsEngine × jsvalue) :=
  let e := e.Enter
  let e := e.Exit
  (AnyFromV8 v8 Null).map (fun r => (e, r))

/-! ## Managed references -/

/-- A call made on the host object table. -/
inductive HostCall where
  | GetProperty (id : Int) (name : List Nat)
  | SetProperty (id : Int) (name : List Nat) (value : jsvalue)

/-- Modelled from the spec: `ManagedRef::GetPropertyValue` (class `ManagedRef`
is not among the sources) delegates to the host object table's "get named
property" capability with (handle, name) and converts the result to a native
value; `host` is that capability and `calls` the calls made on the table. -/
def ManagedRef.GetPropertyValue (host : Int → List Nat → jsvalue) (id : Int)
    (name : List Nat) (calls : List HostCall) : Option V8Value × List HostCall :=
  (AnyToV8 (host id name), calls ++ [.GetProperty id name])

/-- Source function `managed_prop_get`: `holder` is `info.Holder()`, an instance of the managed
template. -/
def managed_prop_get (host : Int → List Nat → jsvalue) (name : List Nat)
    (holder : V8Value) (calls : List HostCall) : Option V8Value × List HostCall :=
  match holder with
  | .managed id => ManagedRef.GetPropertyValue host id name calls
  | _ => (none, calls)

/-- Source function `managed_prop_set`: the body is empty, so no call is made on the host
table and no value is returned (`none`). -/
def managed_prop_set (_name : List Nat) (_value : V8Value) (_holder : V8Value)
    (calls : List HostCall) : Option V8Value × List HostCall :=
  (none, calls)

/-! ## A small script engine for concrete runs -/

/-- The code units of `SyntaxError`. -/
def compileErrorText : List Nat := [83, 121, 110, 116, 97, 120, 69, 114, 114, 111, 114]

/-- The code units of the source `throw 'boom'`. -/
def throwBoom : List Nat := [116, 104, 114, 111, 119, 32, 39, 98, 111, 111, 109, 39]

/-- The code units of the source `throw {toString:function(){throw 1}}`. -/
def throwUnprintable : List Nat :=
  [116, 104, 114, 111, 119, 32, 123, 116, 111, 83, 116, 114, 105, 110, 103, 58, 102, 117,
    110, 99, 116, 105, 111, 110, 40, 41, 123, 116, 104, 114, 111, 119, 32, 49, 125, 125]

/-- A script engine that knows four kinds of source: `(` does not compile,
`throw 'boom'` throws the string `boom`,
`throw {toString:function(){throw 1}}` throws the object 0, whose conversion
to a string throws, and every other source evaluates to the number 42 and
leaves the global object as it is.  The other values that are not strings
have the empty string form. -/
def sampleV8 : V8 where
  Script := List Nat
  text := fun value =>
    match value with
    | .object 0 => none
    | _ => some []
  Compile := fun source =>
    if source = [40] then Except.error (V8Value.string compileErrorText) else Except.ok source
  Run := fun script global =>
    if script = throwBoom then
      (Except.error (V8Value.string [98, 111, 111, 109]), global)
    else if script = throwUnprintable then
      (Except.error (V8Value.object 0), global)
    else (Except.ok (V8Value.number (.finite 42)), global)

/-! ## Predicates of the stated properties -/

/-- A double is representable as a signed 32-bit integer, in the words of the
specification: it is the value of an integer in `[INT32_MIN, INT32_MAX]`. -/
def Int32Representable (d : Double) : Prop :=
  ∃ i : Int, INT32_MIN ≤ i ∧ i ≤ INT32_MAX ∧ d = Double.ofInt i

/-- The value is of one of the kinds `AnyFromV8` tests for: Null, Undefined,
Boolean, Number, String, Date or Array. -/
def Recognized (value : V8Value) : Bool :=
  value.IsNull || value.IsUndefined || value.IsBoolean || value.IsNumber ||
    value.IsString || value.IsDate || value.IsArray

mutual

/-- Every array in the value, at every depth, has a length that fits the
signed 32-bit length field. -/
def V8Value.Fits : V8Value → Bool
  | .array elems => decide (elems.length ≤ 2147483647) && V8Value.FitsAll elems
  | _ => true

/-- Every value of the list fits, see `V8Value.Fits`. -/
def V8Value.FitsAll : List V8Value → Bool
  | [] => true
  | x :: xs => x.Fits && V8Value.FitsAll xs

end

/-- The kind and the payload of a tagged value belong together, in the words
of the data model (exactly one payload variant is valid per kind): a 32-bit
integer for Boolean, Integer and ManagedHandle, a double for Number and Date,
a terminated buffer of code units for String; `AnyToV8` reads no payload for
any other kind. -/
def ValidPairing (v : jsvalue) : Bool :=
  match v.type with
  | JSVALUE_TYPE_BOOLEAN => v.value.i32?.isSome
  | JSVALUE_TYPE_INTEGER => v.value.i32?.isSome
  | JSVALUE_TYPE_MANAGED => v.value.i32?.isSome
  | JSVALUE_TYPE_NUMBER => v.value.num?.isSome
  | JSVALUE_TYPE_DATE => v.value.num?.isSome
  | JSVALUE_TYPE_STRING =>
      match v.value.str? with
      | some data => decide (0 ∈ data)
      | none => false
  | _ => true

/-- The operation left the context as entered as it found it, having called
`Enter` exactly once and `Exit` exactly once. -/
def Balanced (before after : JsEngine) : Prop :=
  after.depth = before.depth ∧ before.calls <+: after.calls ∧
    (after.calls.drop before.calls.length).count .Enter = 1 ∧
    (after.calls.drop before.calls.length).count .Exit = 1

/-! ## Equations of the converter -/

theorem AnyFromV8_null (v8 : V8) :
    AnyFromV8 v8 .null = some (.mk JSVALUE_TYPE_NULL 0 (.str none)) := rfl

theorem AnyFromV8_undefined (v8 : V8) :
    AnyFromV8 v8 .undefined = some (.mk JSVALUE_TYPE_NULL 0 (.str none)) := rfl

theorem AnyFromV8_boolean (v8 : V8) (b : Bool) :
    AnyFromV8 v8 (.boolean b) =
      some (.mk JSVALUE_TYPE_BOOLEAN 0 (.i32 (if b then 1 else 0))) := rfl

theorem AnyFromV8_number (v8 : V8) (d : Double) :
    AnyFromV8 v8 (.number d) =
      if d.IsInt32 then some (.mk JSVALUE_TYPE_INTEGER 0 (.i32 d.Int32Value))
      else some (.mk JSVALUE_TYPE_NUMBER 0 (.num d)) := rfl

theorem AnyFromV8_string (v8 : V8) (s : List Nat) :
    AnyFromV8 v8 (.string s) =
      some (.mk JSVALUE_TYPE_STRING s.length (.str (some (s ++ [0])))) := rfl

theorem AnyFromV8_date (v8 : V8) (t : Double) (valueOf : Option Double) :
    AnyFromV8 v8 (.date t valueOf) =
      some (.mk JSVALUE_TYPE_DATE 0 (.num (valueOf.getD t))) := rfl

theorem AnyFromV8_array (v8 : V8) (elems : List V8Value) :
    AnyFromV8 v8 (.array elems) =
      if elems.length ≤ 2147483647 then
        (AnyFromV8_loop v8 elems).map
          (fun array => .mk JSVALUE_TYPE_ARRAY elems.length (.arr array))
      else none := rfl

theorem AnyFromV8_object (v8 : V8) (id : Nat) :
    AnyFromV8 v8 (.object id) = some (.mk JSVALUE_TYPE_ERROR 0 (.str none)) := rfl

theorem AnyFromV8_function (v8 : V8) (id : Nat) :
    AnyFromV8 v8 (.function id) = some (.mk JSVALUE_TYPE_ERROR 0 (.str none)) := rfl

theorem AnyFromV8_managed (v8 : V8) (id : Int) :
    AnyFromV8 v8 (.managed id) = some (.mk JSVALUE_TYPE_ERROR 0 (.str none)) := rfl

theorem AnyFromV8_loop_cons (v8 : V8) (x : V8Value) (xs : List V8Value) :
    AnyFromV8_loop v8 (x :: xs) =
      (AnyFromV8 v8 x).bind (fun v => (AnyFromV8_loop v8 xs).map (fun vs => v :: vs)) := rfl

theorem V8Value.Fits_array (elems : List V8Value) :
    (V8Value.array elems).Fits =
      (decide (elems.length ≤ 2147483647) && V8Value.FitsAll elems) := rfl

theorem V8Value.FitsAll_cons (x : V8Value) (xs : List V8Value) :
    V8Value.FitsAll (x :: xs) = (x.Fits && V8Value.FitsAll xs) := rfl

mutual

theorem AnyFromV8_of_Fits (v8 : V8) :
    (x : V8Value) → x.Fits = true → ∃ r, AnyFromV8 v8 x = some r
  | .null, _ => ⟨_, rfl⟩
  | .undefined, _ => ⟨_, rfl⟩
  | .boolean _, _ => ⟨_, rfl⟩
  | .number d, _ => by
      rw [AnyFromV8_number]
      by_cases hd : d.IsInt32 = true
      · exact ⟨_, if_pos hd⟩
      · exact ⟨_, if_neg hd⟩
  | .string _, _ => ⟨_, rfl⟩
  | .date _ _, _ => ⟨_, rfl⟩
  | .object _, _ => ⟨_, rfl⟩
  | .function _, _ => ⟨_, rfl⟩
  | .managed _, _ => ⟨_, rfl⟩
  | .array elems, h => by
      rw [V8Value.Fits_array, Bool.and_eq_true, decide_eq_true_eq] at h
      obtain ⟨rs, hrs⟩ := AnyFromV8_loop_of_FitsAll v8 elems h.2
      rw [AnyFromV8_array, if_pos h.1, hrs]
      exact ⟨_, rfl⟩

theorem AnyFromV8_loop_of_FitsAll (v8 : V8) :
    (xs : List V8Value) → V8Value.FitsAll xs = true → ∃ rs, AnyFromV8_loop v8 xs = some rs
  | [], _ => ⟨[], rfl⟩
  | x :: xs, h => by
      rw [V8Value.FitsAll_cons, Bool.and_eq_true] at h
      obtain ⟨r, hr⟩ := AnyFromV8_of_Fits v8 x h.1
      obtain ⟨rs, hrs⟩ := AnyFromV8_loop_of_FitsAll v8 xs h.2
      rw [AnyFromV8_loop_cons, hr, hrs]
      exact ⟨_, rfl⟩

end

/-! ## Number classification -/

theorem wrapInt32_of_range (i : Int) (h1 : INT32_MIN ≤ i) (h2 : i ≤ INT32_MAX) :
    wrapInt32 i = i := by
  unfold wrapInt32
  unfold INT32_MIN at h1
  unfold INT32_MAX at h2
  omega

theorem Double.IsInt32_finite (q : ℚ) :
    (Double.finite q).IsInt32 = true ↔ q.den = 1 ∧ INT32_MIN ≤ q.num ∧ q.num ≤ INT32_MAX := by
  simp [Double.IsInt32, and_assoc]

theorem Double.IsInt32_iff (d : Double) : d.IsInt32 = true ↔ Int32Representable d := by
  constructor
  · intro h
    cases d with
    | finite q =>
        obtain ⟨hd, h1, h2⟩ := (Double.IsInt32_finite q).1 h
        refine ⟨q.num, h1, h2, ?_⟩
        unfold Double.ofInt
        rw [Rat.coe_int_num_of_den_eq_one hd]
    | negZero => simp [Double.IsInt32] at h
    | posInf => simp [Double.IsInt32] at h
    | negInf => simp [Double.IsInt32] at h
    | nan => simp [Double.IsInt32] at h
  · rintro ⟨i, h1, h2, rfl⟩
    unfold Double.ofInt
    rw [Double.IsInt32_finite]
    simp [h1, h2]

theorem Double.Int32Value_ofInt (i : Int) (h1 : INT32_MIN ≤ i) (h2 : i ≤ INT32_MAX) :
    (Double.ofInt i).Int32Value = i := by
  unfold Double.ofInt Double.Int32Value
  simp only [Rat.intCast_num, Rat.intCast_den, Nat.cast_one, Int.tdiv_one]
  exact wrapInt32_of_range i h1 h2

theorem three_halves_den : (3 / 2 : ℚ).den = 2 := by
  have h : (3 / 2 : ℚ) = Rat.divInt 3 2 := by norm_num [Rat.divInt_eq_div]
  rw [h]
  rfl

/-! ## Claims about `AnyFromV8` -/

/-- C2: for every native Number `d`, `AnyFromV8` gives kind Integer with the
32-bit payload equal to `d` exactly when `d` is representable as a signed
32-bit integer, and kind Number with payload `d` otherwise; 2147483647 gives
Integer, 2147483648 gives Number and 1.5 gives Number. -/
theorem C2_integer_classification (v8 : V8) (d : Double) :
    (Int32Representable d →
      ∃ i : Int, INT32_MIN ≤ i ∧ i ≤ INT32_MAX ∧ Double.ofInt i = d ∧
        AnyFromV8 v8 (.number d) = some (.mk JSVALUE_TYPE_INTEGER 0 (.i32 i))) ∧
    (¬ Int32Representable d →
      AnyFromV8 v8 (.number d) = some (.mk JSVALUE_TYPE_NUMBER 0 (.num d))) ∧
    ((∃ r, AnyFromV8 v8 (.number d) = some r ∧ r.type = JSVALUE_TYPE_INTEGER) ↔
      Int32Representable d) ∧
    AnyFromV8 v8 (.number (.finite 2147483647)) =
      some (.mk JSVALUE_TYPE_INTEGER 0 (.i32 2147483647)) ∧
    AnyFromV8 v8 (.number (.finite 2147483648)) =
      some (.mk JSVALUE_TYPE_NUMBER 0 (.num (.finite 2147483648))) ∧
    AnyFromV8 v8 (.number (.finite (3 / 2))) =
      some (.mk JSVALUE_TYPE_NUMBER 0 (.num (.finite (3 / 2)))) := by
  refine ⟨?_, ?_, ?_, rfl, rfl, ?_⟩
  · rintro ⟨i, h1, h2, rfl⟩
    refine ⟨i, h1, h2, rfl, ?_⟩
    rw [AnyFromV8_number, if_pos ((Double.IsInt32_iff _).2 ⟨i, h1, h2, rfl⟩),
      Double.Int32Value_ofInt i h1 h2]
  · intro h
    rw [AnyFromV8_number, if_neg (fun hd => h ((Double.IsInt32_iff d).1 hd))]
  · rw [AnyFromV8_number, ← Double.IsInt32_iff]
    by_cases hd : d.IsInt32 = true
    · simp [hd, jsvalue.type]
    · simp [hd, jsvalue.type]
  · rw [AnyFromV8_number, if_neg]
    rw [Double.IsInt32_finite, three_halves_den]
    omega

/-- C2, at the number 7. -/
theorem C2_integer_classification_witness :
    Int32Representable (.finite 7) ∧
    ∃ i : Int, INT32_MIN ≤ i ∧ i ≤ INT32_MAX ∧ Double.ofInt i = .finite 7 ∧
      AnyFromV8 sampleV8 (.number (.finite 7)) =
        some (.mk JSVALUE_TYPE_INTEGER 0 (.i32 i)) :=
  ⟨⟨7, by decide, by decide, rfl⟩,
    (C2_integer_classification sampleV8 (.finite 7)).1 ⟨7, by decide, by decide, rfl⟩⟩

/-- C8: a native value that is none of Null, Undefined, Boolean, Number,
String, Date or Array (a plain object, a function, the managed proxy that
`AnyToV8` makes from a managed handle) converts to kind Error with length 0
and a null string payload, and a recognized value never converts to kind
Error. -/
theorem C8_unsupported_fallback (v8 : V8) (value : V8Value) :
    (Recognized value = false →
      AnyFromV8 v8 value = some (.mk JSVALUE_TYPE_ERROR 0 (.str none))) ∧
    (Recognized value = true →
      ∀ r, AnyFromV8 v8 value = some r → r.type ≠ JSVALUE_TYPE_ERROR) ∧
    (∀ id : Nat, AnyFromV8 v8 (.object id) = some (.mk JSVALUE_TYPE_ERROR 0 (.str none))) ∧
    (∀ id : Nat, AnyFromV8 v8 (.function id) = some (.mk JSVALUE_TYPE_ERROR 0 (.str none))) ∧
    (∀ (h : Int) (n : Nat),
      (AnyToV8 (.mk JSVALUE_TYPE_MANAGED n (.i32 h))).bind (AnyFromV8 v8) =
        some (.mk JSVALUE_TYPE_ERROR 0 (.str none))) := by
  refine ⟨?_, ?_, fun _ => rfl, fun _ => rfl, fun _ _ => rfl⟩
  · intro h
    cases value <;> first | rfl | simp [Recognized, V8Value.IsNull, V8Value.IsUndefined,
      V8Value.IsBoolean, V8Value.IsNumber, V8Value.IsString, V8Value.IsDate,
      V8Value.IsArray] at h
  · intro hrec r hr
    cases value with
    | null => rw [AnyFromV8_null] at hr; cases hr; simp [jsvalue.type]
    | undefined => rw [AnyFromV8_undefined] at hr; cases hr; simp [jsvalue.type]
    | boolean b => rw [AnyFromV8_boolean] at hr; cases hr; simp [jsvalue.type]
    | number d =>
        rw [AnyFromV8_number] at hr
        by_cases hd : d.IsInt32 = true
        · rw [if_pos hd] at hr; cases hr; simp [jsvalue.type]
        · rw [if_neg hd] at hr; cases hr; simp [jsvalue.type]
    | string s => rw [AnyFromV8_string] at hr; cases hr; simp [jsvalue.type]
    | date t valueOf => rw [AnyFromV8_date] at hr; cases hr; simp [jsvalue.type]
    | array elems =>
        rw [AnyFromV8_array] at hr
        by_cases hl : elems.length ≤ 2147483647
        · rw [if_pos hl] at hr
          cases hloop : AnyFromV8_loop v8 elems with
          | none => rw [hloop] at hr; cases hr
          | some a => rw [hloop] at hr; cases hr; simp [jsvalue.type]
        · rw [if_neg hl] at hr; cases hr
    | object id => simp [Recognized, V8Value.IsNull, V8Value.IsUndefined,
        V8Value.IsBoolean, V8Value.IsNumber, V8Value.IsString, V8Value.IsDate,
        V8Value.IsArray] at hrec
    | function id => simp [Recognized, V8Value.IsNull, V8Value.IsUndefined,
        V8Value.IsBoolean, V8Value.IsNumber, V8Value.IsString, V8Value.IsDate,
        V8Value.IsArray] at hrec
    | managed id => simp [Recognized, V8Value.IsNull, V8Value.IsUndefined,
        V8Value.IsBoolean, V8Value.IsNumber, V8Value.IsString, V8Value.IsDate,
        V8Value.IsArray] at hrec

/-- C8, at a plain object and at the string `a`. -/
theorem C8_unsupported_fallback_witness :
    AnyFromV8 sampleV8 (.object 0) = some (.mk JSVALUE_TYPE_ERROR 0 (.str none)) ∧
    (jsvalue.mk JSVALUE_TYPE_STRING 1 (.str (some [97, 0]))).type ≠ JSVALUE_TYPE_ERROR :=
  ⟨(C8_unsupported_fallback sampleV8 (.object 0)).1 rfl,
    (C8_unsupported_fallback sampleV8 (.string [97])).2.1 rfl _ rfl⟩

/-- C4 (the code at the failing inputs): `AnyToV8` has no branch for kind
Array, so an Array value of any length, the empty one included, converts to
the native Null instead of a native array. -/
theorem C4_array_to_native_is_null :
    (∀ (n : Nat) (a : List jsvalue),
      AnyToV8 (.mk JSVALUE_TYPE_ARRAY n (.arr a)) = some .null) ∧
    AnyToV8 (.mk JSVALUE_TYPE_ARRAY 0 (.arr [])) ≠ some (.array []) ∧
    AnyToV8 (.mk JSVALUE_TYPE_ARRAY 2
        (.arr [.mk JSVALUE_TYPE_INTEGER 0 (.i32 1), .mk JSVALUE_TYPE_INTEGER 0 (.i32 2)])) ≠
      some (.array [.number (.finite 1), .number (.finite 2)]) := by
  have h : ∀ (n : Nat) (a : List jsvalue),
      AnyToV8 (.mk JSVALUE_TYPE_ARRAY n (.arr a)) = some .null := fun _ _ => rfl
  refine ⟨h, ?_, ?_⟩
  · rw [h]; simp
  · rw [h]; simp

/-! ## Claims about the session operations -/

theorem Execute_compile_error (v8 : V8) (e : JsEngine) (str : List Nat)
    (exception : V8Value) (h : v8.Compile str = .error exception) :
    Execute v8 e str =
      (ErrorFromV8 v8 exception).map
        (fun v => ((e.Enter.record (.Compile str)).Exit, v)) := by
  simp only [Execute, h]

theorem Execute_run_error (v8 : V8) (e : JsEngine) (str : List Nat)
    (script : v8.Script) (exception : V8Value) (h : v8.Compile str = .ok script)
    (hr : (v8.Run script e.global).1 = .error exception) :
    Execute v8 e str =
      (ErrorFromV8 v8 exception).map
        (fun v => (({ (e.Enter.record (.Compile str)).record .Run with
            global := (v8.Run script e.global).2 } : JsEngine).Exit, v)) := by
  have hr2 : (v8.Run script (e.Enter.record (.Compile str)).global).1 = .error exception := hr
  simp only [Execute, h, hr2]
  rfl

theorem Execute_run_ok (v8 : V8) (e : JsEngine) (str : List Nat)
    (script : v8.Script) (result : V8Value) (h : v8.Compile str = .ok script)
    (hr : (v8.Run script e.global).1 = .ok result) :
    Execute v8 e str =
      (AnyFromV8 v8 result).map
        (fun v => (({ (e.Enter.record (.Compile str)).record .Run with
            global := (v8.Run script e.global).2 } : JsEngine).Exit, v)) := by
  have hr2 : (v8.Run script (e.Enter.record (.Compile str)).global).1 = .ok result := hr
  simp only [Execute, h, hr2]
  rfl

/-- C3 (the code at the failing input): `StringFromV8` uses the handle that
`value->ToString()` gives without testing it, so for the source
`throw {toString:function(){throw 1}}`, which compiles and throws an object
whose conversion to a string throws, `Execute` returns no value at all, where
for `throw 'boom'` it returns the Error value with the text `boom`. -/
theorem C3_execute_unprintable_exception :
    sampleV8.Compile throwUnprintable = Except.ok throwUnprintable ∧
    (sampleV8.Run throwUnprintable JsEngine.New.global).1 = Except.error (.object 0) ∧
    (V8Value.object 0).ToString sampleV8 = none ∧
    ErrorFromV8 sampleV8 (.object 0) = none ∧
    Execute sampleV8 JsEngine.New throwUnprintable = none ∧
    (Execute sampleV8 JsEngine.New throwBoom).map Prod.snd =
      some (.mk JSVALUE_TYPE_ERROR 4 (.str (some [98, 111, 111, 109, 0]))) :=
  ⟨rfl, rfl, rfl, rfl, rfl, rfl⟩

theorem AnyToV8_of_ValidPairing (v : jsvalue) (h : ValidPairing v = true) :
    ∃ nv, AnyToV8 v = some nv := by
  cases v with
  | mk t n u =>
      cases t <;> cases u <;>
        first
        | exact ⟨_, rfl⟩
        | (exfalso
           simp [ValidPairing, jsvalue.type, jsvalue.value, jsunion.i32?, jsunion.num?,
             jsunion.str?] at h
           done)
        | skip
      next p =>
        cases p with
        | none => simp [ValidPairing, jsvalue.type, jsvalue.value, jsunion.str?] at h
        | some data =>
            have h0 : 0 ∈ data := by
              simpa [ValidPairing, jsvalue.type, jsvalue.value, jsunion.str?] using h
            refine ⟨.string (data.takeWhile (fun u => decide (u ≠ 0))), ?_⟩
            show String.New data = _
            unfold String.New
            rw [if_pos h0]

/-- C7: for every name and every input value, of any kind, whose payload is
the one its kind has (so that `AnyToV8` has a result), `SetValue` binds the
global property `name` to `AnyToV8` of the value, leaves the other global
properties alone, and returns a value of kind Null (never the assigned value,
never an Error); for the kinds Error and Array and for every unknown kind
this holds whatever the payload is, and the value bound is Null. -/
theorem C7_set_value_returns_null (v8 : V8) (e : JsEngine) (name : List Nat)
    (value : jsvalue) :
    (∀ nv, AnyToV8 value = some nv →
      ∃ e2 : JsEngine,
        SetValue v8 e name value = some (e2, .mk JSVALUE_TYPE_NULL 0 (.str none)) ∧
        e2.global name = nv ∧ ∀ n, n ≠ name → e2.global n = e.global n) ∧
    (ValidPairing value = true →
      ∃ e2 : JsEngine,
        SetValue v8 e name value = some (e2, .mk JSVALUE_TYPE_NULL 0 (.str none)) ∧
        AnyToV8 value = some (e2.global name) ∧ ∀ n, n ≠ name → e2.global n = e.global n) ∧
    ((value.type = JSVALUE_TYPE_ERROR ∨ value.type = JSVALUE_TYPE_ARRAY ∨
        ∃ k, value.type = .other k) →
      ∃ e2 : JsEngine,
        SetValue v8 e name value = some (e2, .mk JSVALUE_TYPE_NULL 0 (.str none)) ∧
        e2.global name = .null) := by
  have key : ∀ nv, AnyToV8 value = some nv →
      ∃ e2 : JsEngine,
        SetValue v8 e name value = some (e2, .mk JSVALUE_TYPE_NULL 0 (.str none)) ∧
        e2.global name = nv ∧ ∀ n, n ≠ name → e2.global n = e.global n := by
    intro nv h
    refine ⟨(e.Enter.GlobalSet name nv).Exit, ?_, ?_, ?_⟩
    · simp only [SetValue, h]
      rfl
    · simp [JsEngine.Exit, JsEngine.GlobalSet]
    · intro n hn
      simp [JsEngine.Exit, JsEngine.GlobalSet, JsEngine.Enter, hn]
  refine ⟨key, ?_, ?_⟩
  · intro hv
    obtain ⟨nv, hnv⟩ := AnyToV8_of_ValidPairing value hv
    obtain ⟨e2, h1, h2, h3⟩ := key nv hnv
    exact ⟨e2, h1, by rw [hnv, h2], h3⟩
  · intro ht
    have hnull : AnyToV8 value = some .null := by
      cases value with
      | mk t n u =>
          simp only [jsvalue.type] at ht
          rcases ht with rfl | rfl | ⟨k, rfl⟩ <;> rfl
    obtain ⟨e2, h1, h2, _⟩ := key .null hnull
    exact ⟨e2, h1, h2⟩

/-- C7, at the Integer 42, at the String `a` and at an Error value. -/
theorem C7_set_value_returns_null_witness :
    (∃ e2 : JsEngine,
      SetValue sampleV8 JsEngine.New [120] (.mk JSVALUE_TYPE_INTEGER 0 (.i32 42)) =
        some (e2, .mk JSVALUE_TYPE_NULL 0 (.str none)) ∧
      e2.global [120] = .number (.finite 42) ∧
      ∀ n, n ≠ [120] → e2.global n = JsEngine.New.global n) ∧
    (∃ e2 : JsEngine,
      SetValue sampleV8 JsEngine.New [120] (.mk JSVALUE_TYPE_STRING 1 (.str (some [97, 0]))) =
        some (e2, .mk JSVALUE_TYPE_NULL 0 (.str none)) ∧
      AnyToV8 (.mk JSVALUE_TYPE_STRING 1 (.str (some [97, 0]))) = some (e2.global [120]) ∧
      ∀ n, n ≠ [120] → e2.global n = JsEngine.New.global n) ∧
    (∃ e2 : JsEngine,
      SetValue sampleV8 JsEngine.New [120] (.mk JSVALUE_TYPE_ERROR 1 (.str (some [97, 0]))) =
        some (e2, .mk JSVALUE_TYPE_NULL 0 (.str none)) ∧
      e2.global [120] = .null) :=
  ⟨(C7_set_value_returns_null sampleV8 JsEngine.New [120]
      (.mk JSVALUE_TYPE_INTEGER 0 (.i32 42))).1 (.number (.finite 42)) rfl,
    (C7_set_value_returns_null sampleV8 JsEngine.New [120]
      (.mk JSVALUE_TYPE_STRING 1 (.str (some [97, 0])))).2.1 (by decide),
    (C7_set_value_returns_null sampleV8 JsEngine.New [120]
      (.mk JSVALUE_TYPE_ERROR 1 (.str (some [97, 0])))).2.2 (Or.inl rfl)⟩

/-- C5 (the code at the failing input): `GetValue` never reads the global
object and returns the Null value for every name in every state; after
`SetValue` has bound `x` to the Integer 42, the global `x` converts to the
Integer 42 but `GetValue` of `x` returns Null. -/
theorem C5_get_value_ignores_global :
    (∀ (v8 : V8) (e : JsEngine) (name : List Nat),
      (GetValue v8 e name).map Prod.snd = some (.mk JSVALUE_TYPE_NULL 0 (.str none))) ∧
    ∃ e1 : JsEngine,
      SetValue sampleV8 JsEngine.New [120] (.mk JSVALUE_TYPE_INTEGER 0 (.i32 42)) =
        some (e1, .mk JSVALUE_TYPE_NULL 0 (.str none)) ∧
      AnyFromV8 sampleV8 (e1.global [120]) =
        some (.mk JSVALUE_TYPE_INTEGER 0 (.i32 42)) ∧
      (GetValue sampleV8 e1 [120]).map Prod.snd =
        some (.mk JSVALUE_TYPE_NULL 0 (.str none)) ∧
      (GetValue sampleV8 e1 [120]).map Prod.snd ≠ AnyFromV8 sampleV8 (e1.global [120]) := by
  refine ⟨fun _ _ _ => rfl, ((JsEngine.New.Enter.GlobalSet [120] (.number (.finite 42))).Exit),
    rfl, rfl, rfl, ?_⟩
  have h1 : (GetValue sampleV8
      ((JsEngine.New.Enter.GlobalSet [120] (.number (.finite 42))).Exit) [120]).map Prod.snd =
      some (.mk JSVALUE_TYPE_NULL 0 (.str none)) := rfl
  have h2 : AnyFromV8 sampleV8
      (((JsEngine.New.Enter.GlobalSet [120] (.number (.finite 42))).Exit).global [120]) =
      some (.mk JSVALUE_TYPE_INTEGER 0 (.i32 42)) := rfl
  rw [h1, h2]
  simp

/-- C6 (the code at the failing input): the property-set interceptor has an
empty body: for the proxy of handle 1, the name `x` and the value 42 it makes
no call on the host table and returns no value, where the property-get
interceptor for the same proxy and name calls the host table's get
capability with (1, `x`). -/
theorem C6_prop_set_drops_write :
    (∀ (name : List Nat) (value holder : V8Value) (calls : List HostCall),
      managed_prop_set name value holder calls = (none, calls)) ∧
    managed_prop_set [120] (.number (.finite 42)) (.managed 1) [] = (none, []) ∧
    managed_prop_get (fun _ _ => .mk JSVALUE_TYPE_INTEGER 0 (.i32 42)) [120] (.managed 1) [] =
      (some (.number (.finite 42)), [.GetProperty 1 [120]]) :=
  ⟨fun _ _ _ _ => rfl, rfl, rfl⟩

theorem Balanced_of_calls (before after : JsEngine) (l : List EngineCall)
    (hd : after.depth = before.depth) (hc : after.calls = before.calls ++ l)
    (h1 : l.count .Enter = 1) (h2 : l.count .Exit = 1) : Balanced before after := by
  refine ⟨hd, ?_, ?_, ?_⟩
  · rw [hc]
    exact List.prefix_append _ _
  · rw [hc, List.drop_left]
    exact h1
  · rw [hc, List.drop_left]
    exact h2

theorem Balanced_compile_path (e : JsEngine) (str : List Nat) :
    Balanced e ((e.Enter.record (.Compile str)).Exit) := by
  refine Balanced_of_calls _ _ [.Enter, .Compile str, .Exit] ?_ ?_ ?_ ?_
  · simp [JsEngine.Exit, JsEngine.record, JsEngine.Enter]
  · simp [JsEngine.Exit, JsEngine.record, JsEngine.Enter]
  · simp [List.count_cons]
  · simp [List.count_cons]

theorem Balanced_run_path (e : JsEngine) (str : List Nat) (g : List Nat → V8Value) :
    Balanced e
      ({ (e.Enter.record (.Compile str)).record .Run with global := g } : JsEngine).Exit := by
  refine Balanced_of_calls _ _ [.Enter, .Compile str, .Run, .Exit] ?_ ?_ ?_ ?_
  · simp [JsEngine.Exit, JsEngine.record, JsEngine.Enter]
  · simp [JsEngine.Exit, JsEngine.record, JsEngine.Enter]
  · simp [List.count_cons]
  · simp [List.count_cons]

/-- C10: every call of `Execute` that returns has called `Enter` exactly once
and `Exit` exactly once and leaves the context entry depth as it was, on the
compile-failure, the runtime-failure and the success path, and the call does
return on each path whenever the conversion of the outcome returns a value;
the same holds for `SetValue` (wherever `AnyToV8` has a result for the value)
and for `GetValue`, which always returns. -/
theorem C10_context_balance (v8 : V8) (e : JsEngine) :
    (∀ str r, Execute v8 e str = some r → Balanced e r.1) ∧
    (∀ str exception v, v8.Compile str = .error exception →
      ErrorFromV8 v8 exception = some v →
      ∃ r, Execute v8 e str = some r ∧ r.2 = v ∧ Balanced e r.1) ∧
    (∀ str script exception v, v8.Compile str = .ok script →
      (v8.Run script e.global).1 = .error exception →
      ErrorFromV8 v8 exception = some v →
      ∃ r, Execute v8 e str = some r ∧ r.2 = v ∧ Balanced e r.1) ∧
    (∀ str script result v, v8.Compile str = .ok script →
      (v8.Run script e.global).1 = .ok result →
      AnyFromV8 v8 result = some v →
      ∃ r, Execute v8 e str = some r ∧ r.2 = v ∧ Balanced e r.1) ∧
    (∀ name value nv, AnyToV8 value = some nv →
      ∃ r, SetValue v8 e name value = some r ∧ Balanced e r.1) ∧
    (∀ name, ∃ r, GetValue v8 e name = some r ∧ Balanced e r.1) := by
  refine ⟨?_, ?_, ?_, ?_, ?_, ?_⟩
  · intro str r hr
    cases h : v8.Compile str with
    | error exception =>
        rw [Execute_compile_error v8 e str exception h] at hr
        cases hv : ErrorFromV8 v8 exception with
        | none => rw [hv] at hr; cases hr
        | some v =>
            rw [hv] at hr
            cases hr
            exact Balanced_compile_path e str
    | ok script =>
        cases hrun : (v8.Run script e.global).1 with
        | error exception =>
            rw [Execute_run_error v8 e str script exception h hrun] at hr
            cases hv : ErrorFromV8 v8 exception with
            | none => rw [hv] at hr; cases hr
            | some v =>
                rw [hv] at hr
                cases hr
                exact Balanced_run_path e str _
        | ok result =>
            rw [Execute_run_ok v8 e str script result h hrun] at hr
            cases hv : AnyFromV8 v8 result with
            | none => rw [hv] at hr; cases hr
            | some v =>
                rw [hv] at hr
                cases hr
                exact Balanced_run_path e str _
  · intro str exception v h hv
    rw [Execute_compile_error v8 e str exception h, hv]
    exact ⟨_, rfl, rfl, Balanced_compile_path e str⟩
  · intro str script exception v h hrun hv
    rw [Execute_run_error v8 e str script exception h hrun, hv]
    exact ⟨_, rfl, rfl, Balanced_run_path e str _⟩
  · intro str script result v h hrun hv
    rw [Execute_run_ok v8 e str script result h hrun, hv]
    exact ⟨_, rfl, rfl, Balanced_run_path e str _⟩
  · intro name value nv h
    refine ⟨((e.Enter.GlobalSet name nv).Exit, .mk JSVALUE_TYPE_NULL 0 (.str none)), ?_, ?_⟩
    · simp only [SetValue, h]
      rfl
    · refine Balanced_of_calls _ _ [.Enter, .GlobalSet name, .Exit] ?_ ?_ ?_ ?_
      · simp [JsEngine.Exit, JsEngine.GlobalSet, JsEngine.Enter]
      · simp [JsEngine.Exit, JsEngine.GlobalSet, JsEngine.Enter]
      · simp [List.count_cons]
      · simp [List.count_cons]
  · intro name
    refine ⟨(e.Enter.Exit, .mk JSVALUE_TYPE_NULL 0 (.str none)), rfl, ?_⟩
    refine Balanced_of_calls _ _ [.Enter, .Exit] ?_ ?_ ?_ ?_
    · simp [JsEngine.Exit, JsEngine.Enter]
    · simp [JsEngine.Exit, JsEngine.Enter]
    · simp [List.count_cons]
    · simp [List.count_cons]

/-- C10, at `Execute` of the sources `(`, `throw 'boom'` and `1` and at
`SetValue` of the Integer 42 under the name `x`, in a fresh session. -/
theorem C10_context_balance_witness :
    (∃ r, Execute sampleV8 JsEngine.New [40] = some r ∧
      r.2 = .mk JSVALUE_TYPE_ERROR 11 (.str (some (compileErrorText ++ [0]))) ∧
      Balanced JsEngine.New r.1) ∧
    (∃ r, Execute sampleV8 JsEngine.New throwBoom = some r ∧
      r.2 = .mk JSVALUE_TYPE_ERROR 4 (.str (some [98, 111, 111, 109, 0])) ∧
      Balanced JsEngine.New r.1) ∧
    (∃ r, Execute sampleV8 JsEngine.New [49] = some r ∧
      r.2 = .mk JSVALUE_TYPE_INTEGER 0 (.i32 42) ∧ Balanced JsEngine.New r.1) ∧
    (∃ r, SetValue sampleV8 JsEngine.New [120] (.mk JSVALUE_TYPE_INTEGER 0 (.i32 42)) = some r ∧
      Balanced JsEngine.New r.1) :=
  ⟨(C10_context_balance sampleV8 JsEngine.New).2.1 [40] (.string compileErrorText) _ rfl rfl,
    (C10_context_balance sampleV8 JsEngine.New).2.2.1 throwBoom throwBoom
      (.string [98, 111, 111, 109]) _ rfl rfl rfl,
    (C10_context_balance sampleV8 JsEngine.New).2.2.2.1 [49] [49] (.number (.finite 42)) _
      rfl rfl rfl,
    (C10_context_balance sampleV8 JsEngine.New).2.2.2.2.1 [120]
      (.mk JSVALUE_TYPE_INTEGER 0 (.i32 42)) (.number (.finite 42)) rfl⟩

end VroomJs
